import Mathlib

/-!
Verification development for the Toukaya attribute-wrapper repository.

Shallow embedding of the two components under `include/attr/`:

* `property.hpp` — the CRTP property proxy.  A property is determined by an
  owner type and a getter/setter pair; the proxy itself is stateless, so every
  proxy operation is a function of the owner state.  A mutating C++ member
  `void f(args)` of the owner becomes `Owner → args → Owner` (explicit state
  passing), a const member becomes a plain function of the owner state.

* `attr.hpp` — the optional-like `attr` value box.  Its raw storage plus
  engaged flag is modelled as a `Bool` flag next to an `Option` holding the
  live value (`none` = no object constructed in the storage).  Destructor
  invocations are made observable with explicit counters where the claims
  talk about them.

Compile-time facts the claims depend on (deleted special members, overload
resolution of operators inside member bodies) are embedded as small decision
functions that record how the relevant C++ rule evaluates on this code.
-/

/- Part 1: property proxy (include/attr/property.hpp). -/

/-- Owner-bound getter/setter pair of a read-write property.  Mirrors
`touka::PropertyDescriptor<Owner, T, Getter, Setter>` (property.hpp:150-178):
the getter is a zero-argument const member of `Owner` returning the value, the
setter a one-argument mutating member; in the state-passing embedding the
mutating setter becomes `Owner → T → Owner`. -/
structure PropertyDescriptor (Owner T : Type) where
  getter : Owner → T
  setter : Owner → T → Owner

/-- Internal helper `invoke_getter()` (property.hpp:480-482): invokes the
getter on the resolved owner. -/
def PropertyBase.invoke_getter {Owner T : Type} (d : PropertyDescriptor Owner T)
    (s : Owner) : T :=
  d.getter s

/-- Value assignment `operator=(const T&)` / `operator=(T&&)`
(property.hpp:449-458): passes the assigned value to the setter unchanged. -/
def PropertyBase.assign {Owner T : Type} (d : PropertyDescriptor Owner T)
    (s : Owner) (v : T) : Owner :=
  d.setter s v

/-- Explicit `set` (property.hpp:470-476): passes the value to the setter. -/
def PropertyBase.set {Owner T : Type} (d : PropertyDescriptor Owner T)
    (s : Owner) (v : T) : Owner :=
  d.setter s v

/-- Explicit `get()` (property.hpp:461-463): reads through the getter. -/
def PropertyBase.get {Owner T : Type} (d : PropertyDescriptor Owner T)
    (s : Owner) : T :=
  d.getter s

/-- Implicit conversion `operator T()` (property.hpp:444-446): reads through
the getter, returning by value. -/
def PropertyBase.readConv {Owner T : Type} (d : PropertyDescriptor Owner T)
    (s : Owner) : T :=
  d.getter s

/-- Compound `operator+=` (property.hpp:490-493): `set(invoke_getter() + v)`. -/
def PropertyBase.addAssign {Owner T : Type} [Add T] (d : PropertyDescriptor Owner T)
    (s : Owner) (v : T) : Owner :=
  PropertyBase.set d s (PropertyBase.invoke_getter d s + v)

/-- Compound `operator-=` (property.hpp:495-498): `set(invoke_getter() - v)`. -/
def PropertyBase.subAssign {Owner T : Type} [Sub T] (d : PropertyDescriptor Owner T)
    (s : Owner) (v : T) : Owner :=
  PropertyBase.set d s (PropertyBase.invoke_getter d s - v)

/-- Compound `operator*=` (property.hpp:500-503): `set(invoke_getter() * v)`. -/
def PropertyBase.mulAssign {Owner T : Type} [Mul T] (d : PropertyDescriptor Owner T)
    (s : Owner) (v : T) : Owner :=
  PropertyBase.set d s (PropertyBase.invoke_getter d s * v)

/-- Compound `operator/=` (property.hpp:505-508): `set(invoke_getter() / v)`. -/
def PropertyBase.divAssign {Owner T : Type} [Div T] (d : PropertyDescriptor Owner T)
    (s : Owner) (v : T) : Owner :=
  PropertyBase.set d s (PropertyBase.invoke_getter d s / v)

/-- Compound `operator%=` (property.hpp:510-513): `set(invoke_getter() % v)`. -/
def PropertyBase.modAssign {Owner T : Type} [Mod T] (d : PropertyDescriptor Owner T)
    (s : Owner) (v : T) : Owner :=
  PropertyBase.set d s (PropertyBase.invoke_getter d s % v)

/-- Compound `operator&=` (property.hpp:519-522): `set(invoke_getter() & v)`. -/
def PropertyBase.andAssign {Owner T : Type} [AndOp T] (d : PropertyDescriptor Owner T)
    (s : Owner) (v : T) : Owner :=
  PropertyBase.set d s (PropertyBase.invoke_getter d s &&& v)

/-- Compound `operator|=` (property.hpp:524-527): `set(invoke_getter() | v)`. -/
def PropertyBase.orAssign {Owner T : Type} [OrOp T] (d : PropertyDescriptor Owner T)
    (s : Owner) (v : T) : Owner :=
  PropertyBase.set d s (PropertyBase.invoke_getter d s ||| v)

/-- Compound `operator^=` (property.hpp:529-532): `set(invoke_getter() ^ v)`. -/
def PropertyBase.xorAssign {Owner T : Type} [Xor T] (d : PropertyDescriptor Owner T)
    (s : Owner) (v : T) : Owner :=
  PropertyBase.set d s (PropertyBase.invoke_getter d s ^^^ v)

/-- Compound `operator<<=` (property.hpp:534-537): `set(invoke_getter() << v)`. -/
def PropertyBase.shlAssign {Owner T : Type} [ShiftLeft T] (d : PropertyDescriptor Owner T)
    (s : Owner) (v : T) : Owner :=
  PropertyBase.set d s (PropertyBase.invoke_getter d s <<< v)

/-- Compound `operator>>=` (property.hpp:539-542): `set(invoke_getter() >> v)`. -/
def PropertyBase.shrAssign {Owner T : Type} [ShiftRight T] (d : PropertyDescriptor Owner T)
    (s : Owner) (v : T) : Owner :=
  PropertyBase.set d s (PropertyBase.invoke_getter d s >>> v)

/-- The increment `operator++()` in its prefix form (property.hpp:550-555):
reads a local copy through the getter, applies `++` of `T` (passed in as
`inc`), writes the copy back through the setter and returns `*self()`, the
proxy itself — modelled by returning the descriptor unchanged next to the
updated owner state, so that further operations through the returned proxy act
on the same property. -/
def PropertyBase.preInc {Owner T : Type} (inc : T → T)
    (d : PropertyDescriptor Owner T) (s : Owner) :
    PropertyDescriptor Owner T × Owner :=
  (d, PropertyBase.set d s (inc (PropertyBase.invoke_getter d s)))

/-- The increment `operator++(int)` in its postfix form (property.hpp:558-564):
`old = invoke_getter(); val = old; ++val; set(val); return old` — the
pre-mutation value is returned by value next to the updated owner state. -/
def PropertyBase.postInc {Owner T : Type} (inc : T → T)
    (d : PropertyDescriptor Owner T) (s : Owner) : T × Owner :=
  (PropertyBase.invoke_getter d s,
   PropertyBase.set d s (inc (PropertyBase.invoke_getter d s)))

/-- The decrement `operator--()` in its prefix form (property.hpp:567-572),
same read-modify-write shape with `--` of `T` passed in as `dec`. -/
def PropertyBase.preDec {Owner T : Type} (dec : T → T)
    (d : PropertyDescriptor Owner T) (s : Owner) :
    PropertyDescriptor Owner T × Owner :=
  (d, PropertyBase.set d s (dec (PropertyBase.invoke_getter d s)))

/-- The decrement `operator--(int)` in its postfix form (property.hpp:575-581):
returns the pre-mutation value next to the updated owner state. -/
def PropertyBase.postDec {Owner T : Type} (dec : T → T)
    (d : PropertyDescriptor Owner T) (s : Owner) : T × Owner :=
  (PropertyBase.invoke_getter d s,
   PropertyBase.set d s (dec (PropertyBase.invoke_getter d s)))

/-- Subscript `operator[](Index&&) const` (property.hpp:622-628): invokes the
getter and indexes the result; the `auto` return type returns the indexed
element by value (a copy), and the member is const, so the owner state is not
part of the result. -/
def PropertyBase.subscriptOp {Owner T Ix E : Type} (d : PropertyDescriptor Owner T)
    (idx : T → Ix → E) (s : Owner) (i : Ix) : E :=
  idx (PropertyBase.invoke_getter d s) i

/-- Assigning through the subscript result, `auto c = prop[i]; c = f(c);`:
`operator[]` is a const member returning the element by value, so the mutation
`f` lands on the detached copy and, the proxy invoking no setter, the owner
state passes through unchanged. -/
def PropertyBase.subscriptThenMutate {Owner T Ix E : Type}
    (d : PropertyDescriptor Owner T) (idx : T → Ix → E) (s : Owner) (i : Ix)
    (f : E → E) : E × Owner :=
  (f (PropertyBase.subscriptOp d idx s i), s)

/- Concrete owners, taken from test/property_test.cpp. -/

/-- BasicOwner (property_test.cpp:17-26): an int backing member `value_`. -/
structure BasicOwner where
  value_ : Int
deriving DecidableEq

/-- `BasicOwner::getValue` (property_test.cpp:22). -/
def BasicOwner.getValue (o : BasicOwner) : Int := o.value_

/-- `BasicOwner::setValue` (property_test.cpp:23): stores the value as-is. -/
def BasicOwner.setValue (_o : BasicOwner) (v : Int) : BasicOwner := { value_ := v }

/-- The `value` property of BasicOwner (property_test.cpp:25). -/
def BasicOwner.value : PropertyDescriptor BasicOwner Int :=
  { getter := BasicOwner.getValue, setter := BasicOwner.setValue }

/-- ValidatedOwner (property_test.cpp:97-111): an int member with a clamping
setter. -/
structure ValidatedOwner where
  value_ : Int
deriving DecidableEq

/-- `ValidatedOwner::getValue` (property_test.cpp:102). -/
def ValidatedOwner.getValue (o : ValidatedOwner) : Int := o.value_

/-- `ValidatedOwner::setValue` (property_test.cpp:103-108): clamps the stored
value to the interval from 0 to 100. -/
def ValidatedOwner.setValue (_o : ValidatedOwner) (v : Int) : ValidatedOwner :=
  { value_ := if v < 0 then 0 else if v > 100 then 100 else v }

/-- The `value` property of ValidatedOwner (property_test.cpp:110). -/
def ValidatedOwner.value : PropertyDescriptor ValidatedOwner Int :=
  { getter := ValidatedOwner.getValue, setter := ValidatedOwner.setValue }

/-- VectorOwner (property_test.cpp:131-140): a container-valued property. -/
structure VectorOwner where
  data_ : List Int
deriving DecidableEq

/-- `VectorOwner::getData` (property_test.cpp:136). -/
def VectorOwner.getData (o : VectorOwner) : List Int := o.data_

/-- `VectorOwner::setData` (property_test.cpp:137). -/
def VectorOwner.setData (_o : VectorOwner) (v : List Int) : VectorOwner :=
  { data_ := v }

/-- The `data` property of VectorOwner (property_test.cpp:139). -/
def VectorOwner.data : PropertyDescriptor VectorOwner (List Int) :=
  { getter := VectorOwner.getData, setter := VectorOwner.setData }

/-- In-range indexing of the container value, modelling
`std::vector<int>::operator[]` on valid indices (out-of-range use is undefined
in the source and defaulted to 0 here). -/
def listIndex (l : List Int) (i : Nat) : Int := l.getD i 0

/- Compile-time special-member facts for the proxy (property.hpp). -/

/-- Deleted-or-available status of a member type's copy and move
constructors. -/
structure MemberSpecials where
  copyCtorDeleted : Bool
  moveCtorDeleted : Bool
deriving DecidableEq

/-- PropertyBase deletes both its copy and its move constructor as a safety
rail (property.hpp:414-415); the generated proxy member type
`PropName##_property_t` (property.hpp:823-852) inherits this status, its
implicit copy/move constructors being defined as deleted. -/
def PropertyBase.specials : MemberSpecials :=
  { copyCtorDeleted := true, moveCtorDeleted := true }

/-- A plain data member such as `int value_`: both constructors available. -/
def dataMemberSpecials : MemberSpecials :=
  { copyCtorDeleted := false, moveCtorDeleted := false }

/-- C++ rule (class.copy.ctor): the implicitly-declared copy constructor of a
class is defined as deleted when any non-static data member has a deleted or
inaccessible copy constructor. -/
def implicitCopyCtorDeleted (members : List MemberSpecials) : Bool :=
  members.any (fun m => m.copyCtorDeleted)

/-- C++ rule (class.copy.ctor): same deletion propagation for the
implicitly-declared move constructor; a deleted implicit move constructor is
ignored by overload resolution, which then falls back to the (here also
deleted) copy constructor. -/
def implicitMoveCtorDeleted (members : List MemberSpecials) : Bool :=
  members.any (fun m => m.moveCtorDeleted)

/-- The members of BasicOwner (property_test.cpp:17-26): the int backing member
plus the `value_property_t` proxy member generated by TOUKA_PROPERTY
(property.hpp:823-852). -/
def BasicOwner.memberSpecials : List MemberSpecials :=
  [dataMemberSpecials, PropertyBase.specials]

/- Part 2: the attr value box (include/attr/attr.hpp). -/

/-- The box `attr::attr<T>` (attr.hpp:147-398): an engaged flag next to the
raw storage; the storage is modelled as `Option T`, `some` when a live `T` has
been placement-constructed in it and `none` when not. -/
structure attr (T : Type) where
  engaged : Bool
  val : Option T
deriving DecidableEq

/-- Default constructor `attr()` (attr.hpp:162): the storage default member
initializer leaves `engaged = false` and constructs nothing. -/
def attr.defaultCtor (T : Type) : attr T := { engaged := false, val := none }

/-- Value constructor `attr(const value_type&)` / `attr(value_type&&)`
(attr.hpp:164-169, storage attr.hpp:78-84): engages the box and constructs the
value in the storage. -/
def attr.ctorFromValue {T : Type} (v : T) : attr T :=
  { engaged := true, val := some v }

/-- Copy constructor (attr.hpp:171-178): copies the engaged flag and
copy-constructs the contained value only when the source is engaged. -/
def attr.copyCtor {T : Type} (other : attr T) : attr T :=
  { engaged := other.engaged, val := if other.engaged then other.val else none }

/-- Move constructor (attr.hpp:180-187): copies the engaged flag and
move-constructs from the source value only when the source is engaged. -/
def attr.moveCtor {T : Type} (other : attr T) : attr T :=
  { engaged := other.engaged, val := if other.engaged then other.val else none }

/-- Copy assignment `operator=(const attr&)` (attr.hpp:202-219): equal flags
assign through the live values (or do nothing when both disengaged); unequal
flags destroy or construct and flip this box's flag. -/
def attr.copyAssign {T : Type} (a other : attr T) : attr T :=
  if a.engaged = other.engaged then
    if a.engaged then { a with val := other.val } else a
  else if a.engaged then { engaged := false, val := none }
  else { engaged := true, val := other.val }

/-- Move assignment `operator=(attr&&)` (attr.hpp:221-239): same branch
structure as copy assignment with moves in place of copies. -/
def attr.moveAssign {T : Type} (a other : attr T) : attr T :=
  if a.engaged = other.engaged then
    if a.engaged then { a with val := other.val } else a
  else if a.engaged then { engaged := false, val := none }
  else { engaged := true, val := other.val }

/-- Value assignment `operator=(U&&)` (attr.hpp:241-253): assigns over the
live value when engaged, otherwise engages and constructs. -/
def attr.assignVal {T : Type} (a : attr T) (u : T) : attr T :=
  if a.engaged then { a with val := some u }
  else { engaged := true, val := some u }

/-- `swap` (attr.hpp:255-274).  Branches: equal flags swap the two live values
when engaged and do nothing when both disengaged; unequal flags
move-construct into the disengaged box, destroy the source value, and exchange
the flags.  Caveat recorded by `swapInstantiates` below: the equal-engaged
statement `swap(**this, *other)` (attr.hpp:260) is ill-formed for non-pointer
`T`; this model keeps its intended effect on the stored values, which for the
engagement invariant only matters in that both values stay live and both flags
stay untouched. -/
def attr.swap {T : Type} (a b : attr T) : attr T × attr T :=
  if a.engaged = b.engaged then
    if a.engaged then ({ a with val := b.val }, { b with val := a.val })
    else (a, b)
  else if a.engaged then
    ({ engaged := b.engaged, val := none }, { engaged := a.engaged, val := a.val })
  else
    ({ engaged := b.engaged, val := b.val }, { engaged := a.engaged, val := none })

/-- `reset()` (attr.hpp:276-281): when engaged, calls `destruct_value()` and
clears the flag; otherwise does nothing.  The second component counts the
`destruct_value()` calls (the contained value's destructor invocations for the
non-trivially-destructible storage, attr.hpp:102). -/
def attr.reset {T : Type} (a : attr T) : attr T × Nat :=
  if a.engaged then ({ engaged := false, val := none }, 1) else (a, 0)

/-- Destructor `~attr_storage()` (attr.hpp:86-88): invokes `destruct_value()`
exactly when the flag is set; `true` means the contained value's destructor
runs. -/
def attr.dtorDestructs {T : Type} (a : attr T) : Bool := a.engaged

/-- The engagement invariant of the box (spec section 3, AttrBox): the engaged
flag is set exactly when the storage holds a live constructed value. -/
def attr.inv {T : Type} (a : attr T) : Prop := a.engaged = a.val.isSome

/- Failure reporting for disengaged access (attr.hpp). -/

/-- Outcome of a reported access failure: a thrown `bad_attr_access` (a
`std::logic_error`, attr.hpp:50-56) or a diagnostic followed by abort. -/
inductive AccessFailure where
  | thrownBadAttrAccess
  | abortedWithDiagnostic
deriving DecidableEq

/-- Build-mode constant `touka::detail::EXCEPTIONS_ENABLED` (attr.hpp:13). -/
def detail.EXCEPTIONS_ENABLED : Bool := true

/-- Build-mode constant `touka::detail::ASSERT_ENABLED` (attr.hpp:14). -/
def detail.ASSERT_ENABLED : Bool := true

/-- `throw_bad_attr_access` (attr.hpp:58-65): throws `bad_attr_access` when
exceptions are enabled, otherwise prints the diagnostic and aborts. -/
def throw_bad_attr_access (exceptionsEnabled : Bool) : AccessFailure :=
  if exceptionsEnabled then AccessFailure.thrownBadAttrAccess
  else AccessFailure.abortedWithDiagnostic

/-- Reading the box through any of its four conversion operators to a `T`
reference (attr.hpp:301-304), which all delegate to `get_value_ref`
(attr.hpp:348-380): with exceptions enabled a disengaged box throws
`bad_attr_access`; with exceptions disabled and asserts enabled it aborts with
a diagnostic; with both disabled it reads the dead storage (undefined,
modelled by the default value).  No branch writes any field, so the box passes
through unchanged in every case. -/
def attr.convRead {T : Type} [Inhabited T] (exceptionsEnabled assertEnabled : Bool)
    (a : attr T) : Except AccessFailure T × attr T :=
  if exceptionsEnabled then
    if a.engaged = false then (Except.error (throw_bad_attr_access exceptionsEnabled), a)
    else (Except.ok (a.val.getD default), a)
  else if assertEnabled then
    if a.engaged = false then (Except.error AccessFailure.abortedWithDiagnostic, a)
    else (Except.ok (a.val.getD default), a)
  else (Except.ok (a.val.getD default), a)

/-- Fuelled evaluation of the member `operator==(const T&)` (attr.hpp:297-299).
Its body is `static_cast<bool>(*this) && *this == value`; in the subexpression
`*this == value` the best viable candidate is this same operator again (the
attr/attr overloads would need an implicit `T` to `attr<T>` conversion, which
the explicit constructors rule out, and every other candidate needs at least
one user-defined conversion while this one matches both operands exactly), so
an engaged box re-evaluates the identical call.  `fuel` bounds the call depth
and `none` means no result was produced within that depth. -/
def attr.eqAgainstValue {T : Type} : Nat → attr T → T → Option Bool
  | 0, _, _ => none
  | fuel + 1, a, v =>
    if a.engaged then attr.eqAgainstValue fuel a v else some false

/-- Fuelled evaluation of the member `operator<=>(const T&)` (attr.hpp:289-291),
whose body is `static_cast<bool>(*this) ? *this <=> value :
std::strong_ordering::less`; as with equality, `*this <=> value` resolves to
this same operator, so an engaged box re-evaluates the identical call.  (As
written the operator cannot even be instantiated: its deduced `auto` return
type is used by the recursive call before deduction completes.)  `Ordering.lt`
stands for `std::strong_ordering::less`. -/
def attr.cmpAgainstValue {T : Type} : Nat → attr T → T → Option Ordering
  | 0, _, _ => none
  | fuel + 1, a, v =>
    if a.engaged then attr.cmpAgainstValue fuel a v else some Ordering.lt

/- Compile-time facts for attr::swap (attr.hpp). -/

/-- The class `attr<T>` declares no `operator*` (attr.hpp:147-398 declares
conversions, comparisons, assignment, swap and reset only). -/
def attrDeclaresDeref : Bool := false

/-- Whether unary `*` applies to an expression of type `attr<T>`: only through
a declared `operator*` (there is none) or through the built-in dereference
after the user-defined conversion to `T&`, which requires `T` itself to be a
pointer type. -/
def derefOnAttrCompiles (tIsPointer : Bool) : Bool :=
  attrDeclaresDeref || tIsPointer

/-- Whether `attr<T>::swap` can be instantiated at all: its equal-engaged
branch executes `swap(**this, *other)` (attr.hpp:260), which requires unary
`*` to apply to `attr<T>`. -/
def swapInstantiates (tIsPointer : Bool) : Bool :=
  derefOnAttrCompiles tIsPointer

/- Part 3: the claims. -/

/-- Claim C1: the claim fails on the code.  PropertyBase deletes its copy and
move constructors (property.hpp:414-415); the generated proxy member inherits
that, so the implicit copy (and move) constructor of every owner declared with
a TOUKA_PROPERTY field, such as BasicOwner, is itself defined as deleted and
`O b = a;` is ill-formed — whole-owner copying is impossible, contrary to the
claim.  The independence half of the claim does hold at the state level: the
scenario on two distinct owner states reads 1 from the original and 2 from the
updated copy. -/
theorem owner_whole_copy_ill_formed :
    implicitCopyCtorDeleted BasicOwner.memberSpecials = true ∧
    implicitMoveCtorDeleted BasicOwner.memberSpecials = true ∧
    (∀ s : BasicOwner,
      let a := PropertyBase.assign BasicOwner.value s 1
      let b := PropertyBase.assign BasicOwner.value a 2
      PropertyBase.get BasicOwner.value a = 1 ∧
      PropertyBase.get BasicOwner.value b = 2) :=
  ⟨rfl, rfl, fun _ => ⟨rfl, rfl⟩⟩

/-- Claim C2: for every owner state and every value in the setter's accepted
domain — a value the getter reads back unchanged after the setter stored it —
assigning through the property (operator=, property.hpp:449-458) and then
reading through get() (property.hpp:461-463) yields that value, because the
proxy write path passes the value to the setter unmodified and the read path
is the getter alone. -/
theorem assign_then_get_roundtrip {Owner T : Type}
    (d : PropertyDescriptor Owner T) (s : Owner) (v : T)
    (accepted : d.getter (d.setter s v) = v) :
    PropertyBase.get d (PropertyBase.assign d s v) = v :=
  accepted

/-- Witness for assign_then_get_roundtrip: BasicOwner stores 42 unmodified and
the round trip reads it back. -/
theorem assign_then_get_roundtrip_witness :
    PropertyBase.get BasicOwner.value
      (PropertyBase.assign BasicOwner.value { value_ := 0 } 42) = 42 :=
  assign_then_get_roundtrip BasicOwner.value { value_ := 0 } 42 rfl

/-- Claim C3: each of the ten compound assignment operators
(property.hpp:490-542) is exactly set(get() <op> operand): reading through the
getter, applying the operator and writing the result through the setter, so
the setter's normalization applies to the computed result.  Concretely, with
ValidatedOwner's clamping setter, value = 95 followed by value += 50 leaves
the observable value at 100, not 145. -/
theorem compound_assign_is_read_modify_write :
    (∀ (Owner T : Type) [Add T] (d : PropertyDescriptor Owner T) (s : Owner) (v : T),
      PropertyBase.addAssign d s v = d.setter s (d.getter s + v)) ∧
    (∀ (Owner T : Type) [Sub T] (d : PropertyDescriptor Owner T) (s : Owner) (v : T),
      PropertyBase.subAssign d s v = d.setter s (d.getter s - v)) ∧
    (∀ (Owner T : Type) [Mul T] (d : PropertyDescriptor Owner T) (s : Owner) (v : T),
      PropertyBase.mulAssign d s v = d.setter s (d.getter s * v)) ∧
    (∀ (Owner T : Type) [Div T] (d : PropertyDescriptor Owner T) (s : Owner) (v : T),
      PropertyBase.divAssign d s v = d.setter s (d.getter s / v)) ∧
    (∀ (Owner T : Type) [Mod T] (d : PropertyDescriptor Owner T) (s : Owner) (v : T),
      PropertyBase.modAssign d s v = d.setter s (d.getter s % v)) ∧
    (∀ (Owner T : Type) [AndOp T] (d : PropertyDescriptor Owner T) (s : Owner) (v : T),
      PropertyBase.andAssign d s v = d.setter s (d.getter s &&& v)) ∧
    (∀ (Owner T : Type) [OrOp T] (d : PropertyDescriptor Owner T) (s : Owner) (v : T),
      PropertyBase.orAssign d s v = d.setter s (d.getter s ||| v)) ∧
    (∀ (Owner T : Type) [Xor T] (d : PropertyDescriptor Owner T) (s : Owner) (v : T),
      PropertyBase.xorAssign d s v = d.setter s (d.getter s ^^^ v)) ∧
    (∀ (Owner T : Type) [ShiftLeft T] (d : PropertyDescriptor Owner T) (s : Owner) (v : T),
      PropertyBase.shlAssign d s v = d.setter s (d.getter s <<< v)) ∧
    (∀ (Owner T : Type) [ShiftRight T] (d : PropertyDescriptor Owner T) (s : Owner) (v : T),
      PropertyBase.shrAssign d s v = d.setter s (d.getter s >>> v)) ∧
    (∀ s : ValidatedOwner,
      PropertyBase.get ValidatedOwner.value
        (PropertyBase.addAssign ValidatedOwner.value
          (PropertyBase.assign ValidatedOwner.value s 95) 50) = 100) := by
  refine ⟨?_, ?_, ?_, ?_, ?_, ?_, ?_, ?_, ?_, ?_, ?_⟩
  all_goals intros
  all_goals rfl

/-- Claim C4: the claim fails on the code.  The member operator==(const T&)
(attr.hpp:297-299) evaluates `bool(*this) && *this == value`, and the
subexpression resolves to the same operator, so evaluation on an engaged box
never produces a result at any call depth (runtime infinite recursion); only a
disengaged box terminates, with false.  The member operator<=>(const T&)
(attr.hpp:289-291) has the same self-call (and as written cannot even be
instantiated, its deduced return type being used recursively); only the
disengaged case would produce std::strong_ordering::less. -/
theorem attr_value_comparison_diverges :
    (∀ fuel : Nat,
      attr.eqAgainstValue fuel (⟨true, some 42⟩ : attr Int) 42 = none) ∧
    (∀ fuel : Nat,
      attr.eqAgainstValue (fuel + 1) (⟨false, none⟩ : attr Int) 42 = some false) ∧
    (∀ fuel : Nat,
      attr.cmpAgainstValue fuel (⟨true, some 42⟩ : attr Int) 42 = none) ∧
    (∀ fuel : Nat,
      attr.cmpAgainstValue (fuel + 1) (⟨false, none⟩ : attr Int) 42 = some Ordering.lt) := by
  refine ⟨?_, ?_, ?_, ?_⟩
  · intro fuel
    induction fuel with
    | zero => rfl
    | succ n ih => simpa [attr.eqAgainstValue] using ih
  · intro fuel
    simp [attr.eqAgainstValue]
  · intro fuel
    induction fuel with
    | zero => rfl
    | succ n ih => simpa [attr.cmpAgainstValue] using ih
  · intro fuel
    simp [attr.cmpAgainstValue]

/-- Claim C5: reading a disengaged box through any of its conversion operators
never silently returns a value: in the exceptions-enabled build (the
configured one, EXCEPTIONS_ENABLED = true) it raises the catchable logic-error
bad_attr_access, in the no-exceptions build it aborts with a diagnostic, and
in both modes the failed access leaves the box unchanged. -/
theorem disengaged_access_reports_failure {T : Type} [Inhabited T]
    (a : attr T) (h : a.engaged = false) :
    detail.EXCEPTIONS_ENABLED = true ∧
    (attr.convRead true true a).1 = Except.error AccessFailure.thrownBadAttrAccess ∧
    (attr.convRead false true a).1 = Except.error AccessFailure.abortedWithDiagnostic ∧
    (attr.convRead true true a).2 = a ∧
    (attr.convRead false true a).2 = a := by
  refine ⟨rfl, ?_, ?_, ?_, ?_⟩ <;>
    simp [attr.convRead, throw_bad_attr_access, h]

/-- Witness for disengaged_access_reports_failure at the default-constructed
disengaged attr Int, in both build modes. -/
theorem disengaged_access_reports_failure_witness :
    (attr.convRead true true (⟨false, none⟩ : attr Int)).1 =
      Except.error AccessFailure.thrownBadAttrAccess ∧
    (attr.convRead false true (⟨false, none⟩ : attr Int)).1 =
      Except.error AccessFailure.abortedWithDiagnostic :=
  ⟨(disengaged_access_reports_failure (⟨false, none⟩ : attr Int) rfl).2.1,
   (disengaged_access_reports_failure (⟨false, none⟩ : attr Int) rfl).2.2.1⟩

/-- Claim C6: the claim fails on the code.  attr<T> declares no operator*, so
the equal-engaged branch of swap, `swap(**this, *other)` (attr.hpp:260), is
well-formed only when the built-in dereference applies after the conversion to
T& — that is, only when T itself is a pointer type.  For every non-pointer T
(int included) calling a.swap(b) fails to compile in all four engagement
combinations, and for pointer T the branch would swap the pointees rather than
the contained pointer values. -/
theorem swap_engaged_engaged_ill_formed :
    attrDeclaresDeref = false ∧ derefOnAttrCompiles false = false ∧
    swapInstantiates false = false :=
  ⟨rfl, rfl, rfl⟩

/-- Claim C7: a default-constructed box is disengaged; assigning a value
engages it; reset() on an engaged box calls the contained value's destructor
exactly once and disengages it; reset() on a disengaged box is a no-op with no
destructor call; hence reset is idempotent. -/
theorem reset_engagement_cycle {T : Type} (a : attr T) :
    (attr.defaultCtor T).engaged = false ∧
    (∀ u : T, (attr.assignVal a u).engaged = true) ∧
    (a.engaged = true → attr.reset a = ({ engaged := false, val := none }, 1)) ∧
    (a.engaged = false → attr.reset a = (a, 0)) ∧
    attr.reset (attr.reset a).1 = ((attr.reset a).1, 0) := by
  refine ⟨rfl, ?_, ?_, ?_, ?_⟩
  · intro u
    cases h : a.engaged <;> simp [attr.assignVal, h]
  · intro h
    simp [attr.reset, h]
  · intro h
    simp [attr.reset, h]
  · cases h : a.engaged <;> simp [attr.reset, h]

/-- Witness for reset_engagement_cycle: reset of an engaged attr Int destructs
once and disengages; reset of a disengaged one is a no-op. -/
theorem reset_engagement_cycle_witness :
    attr.reset (⟨true, some 5⟩ : attr Int) = ({ engaged := false, val := none }, 1) ∧
    attr.reset (⟨false, none⟩ : attr Int) = (⟨false, none⟩, 0) :=
  ⟨(reset_engagement_cycle (⟨true, some 5⟩ : attr Int)).2.2.1 rfl,
   (reset_engagement_cycle (⟨false, none⟩ : attr Int)).2.2.2.1 rfl⟩

/-- Claim C8: every box operation — default construction, value construction,
copy/move construction, copy/move assignment, value assignment, swap, reset —
preserves the invariant that the engaged flag is set exactly when the storage
holds a live value, and the destructor destructs the contained value exactly
when (under the invariant: exactly when a live value is held) the box is
engaged. -/
theorem attr_ops_preserve_invariant (T : Type) :
    attr.inv (attr.defaultCtor T) ∧
    (∀ v : T, attr.inv (attr.ctorFromValue v)) ∧
    (∀ o : attr T, attr.inv o → attr.inv (attr.copyCtor o)) ∧
    (∀ o : attr T, attr.inv o → attr.inv (attr.moveCtor o)) ∧
    (∀ a o : attr T, attr.inv a → attr.inv o → attr.inv (attr.copyAssign a o)) ∧
    (∀ a o : attr T, attr.inv a → attr.inv o → attr.inv (attr.moveAssign a o)) ∧
    (∀ (a : attr T) (u : T), attr.inv (attr.assignVal a u)) ∧
    (∀ a b : attr T, attr.inv a → attr.inv b →
      attr.inv (attr.swap a b).1 ∧ attr.inv (attr.swap a b).2) ∧
    (∀ a : attr T, attr.inv a → attr.inv (attr.reset a).1) ∧
    (∀ a : attr T, attr.inv a → attr.dtorDestructs a = a.val.isSome) := by
  refine ⟨rfl, fun v => rfl, ?_, ?_, ?_, ?_, ?_, ?_, ?_, ?_⟩
  · intro o ho
    cases h : o.engaged <;> simp_all [attr.inv, attr.copyCtor]
  · intro o ho
    cases h : o.engaged <;> simp_all [attr.inv, attr.moveCtor]
  · intro a o ha ho
    cases h : a.engaged <;> cases h' : o.engaged <;>
      simp_all [attr.inv, attr.copyAssign]
  · intro a o ha ho
    cases h : a.engaged <;> cases h' : o.engaged <;>
      simp_all [attr.inv, attr.moveAssign]
  · intro a u
    cases h : a.engaged <;> simp [attr.inv, attr.assignVal, h]
  · intro a b ha hb
    cases h : a.engaged <;> cases h' : b.engaged <;>
      simp_all [attr.inv, attr.swap]
  · intro a ha
    cases h : a.engaged <;> simp_all [attr.inv, attr.reset]
  · intro a ha
    simpa [attr.dtorDestructs] using ha

/-- Witness for attr_ops_preserve_invariant: copy-assigning a disengaged box
over an engaged attr Int keeps the invariant. -/
theorem attr_ops_preserve_invariant_witness :
    attr.inv (attr.copyAssign (⟨true, some 3⟩ : attr Int) ⟨false, none⟩) :=
  (attr_ops_preserve_invariant Int).2.2.2.2.1
    ⟨true, some 3⟩ ⟨false, none⟩ rfl rfl

/-- Claim C9: the prefix increment and decrement (property.hpp:549-581) read
the value through the getter, mutate a local copy, write it back through the
setter and return the proxy itself (so a further assignment through the
returned proxy hits the same property), while the postfix forms perform the
same read-modify-write but return the pre-mutation value by value. -/
theorem inc_dec_read_modify_write :
    (∀ (Owner T : Type) (inc : T → T) (d : PropertyDescriptor Owner T) (s : Owner),
      PropertyBase.preInc inc d s = (d, d.setter s (inc (d.getter s)))) ∧
    (∀ (Owner T : Type) (inc : T → T) (d : PropertyDescriptor Owner T) (s : Owner),
      PropertyBase.postInc inc d s = (d.getter s, d.setter s (inc (d.getter s)))) ∧
    (∀ (Owner T : Type) (dec : T → T) (d : PropertyDescriptor Owner T) (s : Owner),
      PropertyBase.preDec dec d s = (d, d.setter s (dec (d.getter s)))) ∧
    (∀ (Owner T : Type) (dec : T → T) (d : PropertyDescriptor Owner T) (s : Owner),
      PropertyBase.postDec dec d s = (d.getter s, d.setter s (dec (d.getter s)))) ∧
    (∀ (Owner T : Type) (inc : T → T) (d : PropertyDescriptor Owner T) (s : Owner) (w : T),
      PropertyBase.assign (PropertyBase.preInc inc d s).1
        (PropertyBase.preInc inc d s).2 w
        = d.setter (d.setter s (inc (d.getter s))) w) ∧
    PropertyBase.postInc (fun x => x + 1) BasicOwner.value { value_ := 10 }
      = (10, { value_ := 11 }) := by
  refine ⟨?_, ?_, ?_, ?_, ?_, rfl⟩
  all_goals intros
  all_goals rfl

/-- Claim C10: the subscript operator (property.hpp:622-628) returns the
element by value: it invokes the getter and indexes the result, and being a
const member that never calls the setter, a mutation applied to the returned
copy leaves the owner state — and hence any re-read through the property —
unchanged.  The concrete VectorOwner instance reproduces the repository's
subscript test values. -/
theorem subscript_reads_by_value :
    (∀ (Owner T Ix E : Type) (d : PropertyDescriptor Owner T) (idx : T → Ix → E)
      (s : Owner) (i : Ix),
      PropertyBase.subscriptOp d idx s i = idx (d.getter s) i) ∧
    (∀ (Owner T Ix E : Type) (d : PropertyDescriptor Owner T) (idx : T → Ix → E)
      (s : Owner) (i : Ix) (f : E → E),
      PropertyBase.subscriptThenMutate d idx s i f
        = (f (idx (d.getter s) i), s)) ∧
    (∀ (Owner T Ix E : Type) (d : PropertyDescriptor Owner T) (idx : T → Ix → E)
      (s : Owner) (i j : Ix) (f : E → E),
      PropertyBase.subscriptOp d idx (PropertyBase.subscriptThenMutate d idx s i f).2 j
        = PropertyBase.subscriptOp d idx s j) ∧
    (PropertyBase.subscriptOp VectorOwner.data listIndex { data_ := [1, 2, 3, 4, 5] } 0 = 1 ∧
     PropertyBase.subscriptOp VectorOwner.data listIndex { data_ := [1, 2, 3, 4, 5] } 2 = 3 ∧
     PropertyBase.subscriptOp VectorOwner.data listIndex { data_ := [1, 2, 3, 4, 5] } 4 = 5) := by
  refine ⟨?_, ?_, ?_, rfl, rfl, rfl⟩
  all_goals intros
  all_goals rfl
